import Mathlib

/-!
Verification development for the product_sync Odoo addon.

Shallow embedding of:
  addons/product_sync/services/api_client.py   (APIClient)
  addons/product_sync/services/rate_limiter.py (RateLimiter, AdaptiveRateLimiter)
  addons/product_sync/models/product_sync.py   (ProductTemplate sync extension)
  addons/product_sync/services/sync_service.py (ProductSyncService)

Modelling conventions: Python floats holding token counts, prices and
wall-clock timestamps are embedded as rationals (exact arithmetic);
Odoo datetimes are embedded as natural-number timestamps; wall-clock
time is passed to each operation explicitly; HTTP traffic is embedded
as a function from (1-based) attempt number to the outcome of that
attempt; a JSON dict is embedded as a structure of Option-typed fields
where none models a missing key.
-/

namespace ProductSync

/-! ### services/api_client.py -/

/-- Kind of network-level exception raised by the requests library:
requests.exceptions.Timeout, ConnectionError, or another RequestException. -/
inductive NetExn where
  | timeout
  | connectionError
  | requestException
deriving DecidableEq

/-- Outcome of one HTTP attempt: a response carrying a status code and an
optional JSON body (none when the body does not parse as JSON, e.g. 204
No Content), or a network-level exception. -/
inductive HttpOutcome where
  | resp (status : Nat) (body : Option String)
  | exn (e : NetExn)
deriving DecidableEq

/-- APIClientError raised by _make_request, distinguished by message shape:
clientError models the message built at the no-retry branch
(Client error: status - text); attemptsExhausted models the message built
after the while loop (Request failed after N attempts), which appends the
stored last_exception when one was recorded. -/
inductive ReqError where
  | clientError (status : Nat)
  | attemptsExhausted (last : Option NetExn)
deriving DecidableEq

/-- APIClient._calculate_backoff: base_delay = 2 ** (attempt - 1), capped
at 60 seconds. -/
def calculate_backoff (attempt : Nat) : Nat :=
  let base_delay := 2 ^ (attempt - 1)
  min base_delay 60

/-- APIClient._should_retry: False once attempt >= max_retries, then retry
on 5xx, on 429 and on 408; no retry on any other status. -/
def should_retry (max_retries status attempt : Nat) : Bool :=
  if attempt ≥ max_retries then false
  else if 500 ≤ status ∧ status < 600 then true
  else if status = 429 then true
  else if status = 408 then true
  else false

/-- Result of _make_request: the returned JSON body or the raised
APIClientError, together with the number of attempts performed and the
trace of time.sleep backoff durations. -/
structure ReqTrace where
  result : Except ReqError (Option String)
  attempts : Nat
  sleeps : List Nat

/-- Body of the while attempt < max_retries loop of APIClient._make_request.
attempt counts attempts already performed; env gives the outcome of each
1-based attempt. The fuel argument only drives structural recursion:
make_request supplies fuel = max_retries, which bounds the number of
iterations the guard attempt < max_retries allows, so the fuel-zero row is
never reached from make_request. -/
def make_request_go (max_retries : Nat) (env : Nat → HttpOutcome) :
    Nat → Nat → Option NetExn → List Nat → ReqTrace
  | fuel, attempt, last_exception, sleeps =>
    if attempt < max_retries then
      match fuel with
      | 0 => ⟨.error (.attemptsExhausted last_exception), attempt, sleeps⟩
      | fuel' + 1 =>
        match env (attempt + 1) with
        | .resp status body =>
          if 200 ≤ status ∧ status < 300 then
            -- response.json() when it parses, None otherwise (204 or invalid JSON)
            ⟨.ok body, attempt + 1, sleeps⟩
          else if should_retry max_retries status (attempt + 1) then
            make_request_go max_retries env fuel' (attempt + 1) last_exception
              (sleeps ++ [calculate_backoff (attempt + 1)])
          else
            ⟨.error (.clientError status), attempt + 1, sleeps⟩
        | .exn e =>
          if attempt + 1 < max_retries then
            make_request_go max_retries env fuel' (attempt + 1) (some e)
              (sleeps ++ [calculate_backoff (attempt + 1)])
          else
            -- the except handler stores the exception and falls back to the
            -- loop guard, which fails and exits the loop
            make_request_go max_retries env fuel' (attempt + 1) (some e) sleeps
    else
      ⟨.error (.attemptsExhausted last_exception), attempt, sleeps⟩

/-- APIClient._make_request: run the retry loop from attempt = 0 with no
stored last_exception. -/
def make_request (max_retries : Nat) (env : Nat → HttpOutcome) : ReqTrace :=
  make_request_go max_retries env max_retries 0 none []

theorem go_exhausted (max_retries : Nat) (env : Nat → HttpOutcome)
    (fuel attempt : Nat) (l : Option NetExn) (sleeps : List Nat)
    (h : ¬ attempt < max_retries) :
    make_request_go max_retries env fuel attempt l sleeps =
      ⟨.error (.attemptsExhausted l), attempt, sleeps⟩ := by
  unfold make_request_go
  rw [if_neg h]

theorem go_retry_status (max_retries : Nat) (env : Nat → HttpOutcome)
    (fuel attempt status : Nat) (body : Option String) (l : Option NetExn)
    (sleeps : List Nat) (h : attempt < max_retries)
    (henv : env (attempt + 1) = .resp status body)
    (h2 : ¬ (200 ≤ status ∧ status < 300))
    (h3 : should_retry max_retries status (attempt + 1) = true) :
    make_request_go max_retries env (fuel + 1) attempt l sleeps =
      make_request_go max_retries env fuel (attempt + 1) l
        (sleeps ++ [calculate_backoff (attempt + 1)]) := by
  conv_lhs => unfold make_request_go
  rw [if_pos h]
  simp only [henv, if_neg h2, h3, if_true]

theorem go_terminal_status (max_retries : Nat) (env : Nat → HttpOutcome)
    (fuel attempt status : Nat) (body : Option String) (l : Option NetExn)
    (sleeps : List Nat) (h : attempt < max_retries)
    (henv : env (attempt + 1) = .resp status body)
    (h2 : ¬ (200 ≤ status ∧ status < 300))
    (h3 : should_retry max_retries status (attempt + 1) = false) :
    make_request_go max_retries env (fuel + 1) attempt l sleeps =
      ⟨.error (.clientError status), attempt + 1, sleeps⟩ := by
  conv_lhs => unfold make_request_go
  rw [if_pos h]
  simp only [henv, if_neg h2, h3, if_false, Bool.false_eq_true]

theorem go_exn_step (max_retries : Nat) (env : Nat → HttpOutcome)
    (fuel attempt : Nat) (e : NetExn) (l : Option NetExn)
    (sleeps : List Nat) (h : attempt < max_retries)
    (henv : env (attempt + 1) = .exn e) :
    make_request_go max_retries env (fuel + 1) attempt l sleeps =
      if attempt + 1 < max_retries then
        make_request_go max_retries env fuel (attempt + 1) (some e)
          (sleeps ++ [calculate_backoff (attempt + 1)])
      else
        make_request_go max_retries env fuel (attempt + 1) (some e) sleeps := by
  conv_lhs => unfold make_request_go
  rw [if_pos h]
  simp only [henv]

theorem should_retry_of_retryable (max_retries status attempt : Nat)
    (hs : status ∈ [500, 502, 503, 429, 408]) (h : attempt < max_retries) :
    should_retry max_retries status attempt = true := by
  fin_cases hs <;> simp [should_retry, Nat.not_le.mpr h]

theorem should_retry_of_terminal (max_retries status attempt : Nat)
    (hs : status ∈ [400, 401, 403, 404]) :
    should_retry max_retries status attempt = false := by
  fin_cases hs <;> by_cases h : attempt ≥ max_retries <;> simp [should_retry, h]

theorem retryable_not_success (status : Nat) (hs : status ∈ [500, 502, 503, 429, 408]) :
    ¬ (200 ≤ status ∧ status < 300) := by
  fin_cases hs <;> omega

/-- C8: the retry backoff of APIClient is min(2^(n-1), 60) seconds for every
1-based attempt number n; in particular backoff(1) = 1, backoff(4) = 8 and
backoff(10) = 60. -/
theorem c8_backoff_formula :
    calculate_backoff 1 = 1 ∧ calculate_backoff 4 = 8 ∧ calculate_backoff 10 = 60 ∧
    ∀ n : Nat, 1 ≤ n → calculate_backoff n = min (2 ^ (n - 1)) 60 :=
  ⟨rfl, rfl, rfl, fun _ _ => rfl⟩

theorem c8_backoff_formula_witness : calculate_backoff 7 = 60 :=
  (c8_backoff_formula.2.2.2 7 (by decide)).trans (by decide)

/-- C4: the retry classification of _make_request holds exactly. A response
with status in 500, 502, 503, 429 or 408 while attempts remain makes the
loop sleep the backoff for that attempt and try again; a response with
status in 400, 401, 403 or 404 terminates the loop on the spot, at
whatever attempt it arrives, with a clientError and no further attempt or
sleep — in particular such a status on the very first attempt ends the
request after exactly one attempt, whatever max_retries allows. -/
theorem c4_retry_classification (max_retries : Nat) (env : Nat → HttpOutcome)
    (status : Nat) (body : Option String) :
    (status ∈ [500, 502, 503, 429, 408] →
      ∀ fuel attempt l sleeps, attempt + 1 < max_retries →
        env (attempt + 1) = .resp status body →
        make_request_go max_retries env (fuel + 1) attempt l sleeps =
          make_request_go max_retries env fuel (attempt + 1) l
            (sleeps ++ [calculate_backoff (attempt + 1)])) ∧
    (status ∈ [400, 401, 403, 404] →
      ∀ fuel attempt l sleeps, attempt < max_retries →
        env (attempt + 1) = .resp status body →
        make_request_go max_retries env (fuel + 1) attempt l sleeps =
          ⟨.error (.clientError status), attempt + 1, sleeps⟩) ∧
    (status ∈ [400, 401, 403, 404] → env 1 = .resp status body → 1 ≤ max_retries →
      make_request max_retries env =
        ⟨.error (.clientError status), 1, []⟩) := by
  have hterm : status ∈ [400, 401, 403, 404] →
      ∀ fuel attempt l sleeps, attempt < max_retries →
        env (attempt + 1) = .resp status body →
        make_request_go max_retries env (fuel + 1) attempt l sleeps =
          ⟨.error (.clientError status), attempt + 1, sleeps⟩ := by
    intro hs fuel attempt l sleeps hlt henv
    have h2 : ¬ (200 ≤ status ∧ status < 300) := by fin_cases hs <;> omega
    exact go_terminal_status max_retries env fuel attempt status body l sleeps hlt henv h2
      (should_retry_of_terminal max_retries status (attempt + 1) hs)
  refine ⟨?_, hterm, ?_⟩
  · intro hs fuel attempt l sleeps hlt henv
    exact go_retry_status max_retries env fuel attempt status body l sleeps
      (by omega) henv (retryable_not_success status hs)
      (should_retry_of_retryable max_retries status (attempt + 1) hs hlt)
  · intro hs henv hmr
    obtain ⟨m, rfl⟩ : ∃ m, max_retries = m + 1 := ⟨max_retries - 1, by omega⟩
    exact hterm hs m 0 none [] (by omega) henv

theorem c4_retry_classification_witness :
    make_request 3 (fun _ => .resp 404 none) = ⟨.error (.clientError 404), 1, []⟩ ∧
    make_request_go 3 (fun _ => .resp 503 none) 3 0 none [] =
      make_request_go 3 (fun _ => .resp 503 none) 2 1 none [calculate_backoff 1] := by
  constructor
  · exact (c4_retry_classification 3 (fun _ => .resp 404 none) 404 none).2.2
      (by decide) rfl (by decide)
  · have h := (c4_retry_classification 3 (fun _ => .resp 503 none) 503 none).1
      (by decide) 2 0 none [] (by decide) rfl
    simpa using h

theorem go_all_exn (max_retries : Nat) (env : Nat → HttpOutcome) (e : Nat → NetExn) :
    ∀ fuel attempt l sleeps,
      (∀ i, attempt < i → i ≤ max_retries → env i = .exn (e i)) →
      attempt < max_retries → max_retries ≤ attempt + fuel →
      (make_request_go max_retries env fuel attempt l sleeps).result =
        .error (.attemptsExhausted (some (e max_retries))) := by
  intro fuel
  induction fuel with
  | zero => intro attempt l sleeps _ hlt hle; omega
  | succ n ih =>
    intro attempt l sleeps henv hlt hle
    have he : env (attempt + 1) = .exn (e (attempt + 1)) :=
      henv (attempt + 1) (by omega) (by omega)
    rw [go_exn_step max_retries env n attempt (e (attempt + 1)) l sleeps hlt he]
    by_cases h1 : attempt + 1 < max_retries
    · rw [if_pos h1]
      exact ih (attempt + 1) (some (e (attempt + 1))) _
        (fun i hi hi2 => henv i (by omega) hi2) h1 (by omega)
    · rw [if_neg h1]
      have hm : attempt + 1 = max_retries := by omega
      rw [go_exhausted max_retries env n (attempt + 1) (some (e (attempt + 1))) sleeps h1, hm]

/-- What _make_request actually raises once every attempt has been consumed
by retryable failures depends on the kind of the last failure. When every
attempt raised a network exception, the loop exits and the "attempts
exhausted" APIClientError wrapping the stored last exception is raised.
When the final attempt instead got a retryable HTTP status (5xx, 429 or
408), _should_retry returns False because attempt >= max_retries, and the
code falls through to the immediate clientError raise: no "attempts
exhausted" error and no wrapped cause. -/
theorem c3_exhaustion_error (max_retries : Nat) (env : Nat → HttpOutcome)
    (e : Nat → NetExn) :
    (1 ≤ max_retries → (∀ i, 1 ≤ i → i ≤ max_retries → env i = .exn (e i)) →
      (make_request max_retries env).result =
        .error (.attemptsExhausted (some (e max_retries)))) ∧
    (∀ fuel attempt status body l sleeps, attempt + 1 = max_retries →
      status ∈ [500, 502, 503, 429, 408] → env (attempt + 1) = .resp status body →
      make_request_go max_retries env (fuel + 1) attempt l sleeps =
        ⟨.error (.clientError status), attempt + 1, sleeps⟩) := by
  constructor
  · intro hmr henv
    exact go_all_exn max_retries env e max_retries 0 none []
      (fun i hi hi2 => henv i (by omega) hi2) (by omega) (by omega)
  · intro fuel attempt status body l sleeps hm hs henv
    refine go_terminal_status max_retries env fuel attempt status body l sleeps
      (by omega) henv (retryable_not_success status hs) ?_
    unfold should_retry
    rw [if_pos (by omega)]

theorem c3_exhaustion_error_witness :
    (make_request 3 (fun _ => .exn .timeout)).result =
      .error (.attemptsExhausted (some .timeout)) ∧
    make_request_go 2 (fun _ => .resp 429 none) 1 1 none [1] =
      ⟨.error (.clientError 429), 2, [1]⟩ := by
  constructor
  · exact (c3_exhaustion_error 3 (fun _ => .exn .timeout) (fun _ => .timeout)).1
      (by decide) (fun i _ _ => rfl)
  · have h := (c3_exhaustion_error 2 (fun _ => .resp 429 none) (fun _ => .timeout)).2
      0 1 429 none none [1] (by decide) (by decide) rfl
    simpa using h

/-- C3 is violated by the code on the HTTP-status side: with max_retries = 2
and a server answering 500 to every attempt, both attempts are consumed by
retryable failures (the first 500 is retried after the one-second backoff),
yet on the final attempt _should_retry returns False because
attempt >= max_retries and _make_request falls through to the
clientError-shaped raise: the APIClientError carries the message
"Client error: 500", not the "attempts exhausted" message the claim (and
the repository test test_max_retries_exceeded) requires, and no cause is
wrapped since last_exception was never set. -/
theorem c3_terminal_500_eval :
    make_request 2 (fun _ => .resp 500 none) =
      ⟨.error (.clientError 500), 2, [1]⟩ := by
  have h1 : make_request_go 2 (fun _ => .resp 500 none) 2 0 none [] =
      make_request_go 2 (fun _ => .resp 500 none) 1 1 none [1] := by
    have h := go_retry_status 2 (fun _ => .resp 500 none) 1 0 500 none none []
      (by decide) rfl (by decide) (by decide)
    simpa using h
  have h2 : make_request_go 2 (fun _ => .resp 500 none) 1 1 none [1] =
      ⟨.error (.clientError 500), 2, [1]⟩ :=
    go_terminal_status 2 (fun _ => .resp 500 none) 0 1 500 none none [1]
      (by decide) rfl (by decide) (by decide)
  exact h1.trans h2

/-! ### services/rate_limiter.py -/

/-- State of a RateLimiter instance. tokens, max_tokens and last_refill are
Python floats, embedded as rationals; rate is an int. max_tokens is set to
float(rate) by the constructor (and tracks rate in the adaptive variant). -/
structure RateLimiter where
  rate : Nat
  per_seconds : ℚ
  tokens : ℚ
  max_tokens : ℚ
  last_refill : ℚ
deriving DecidableEq

/-- RateLimiter.__init__ with the given rate and window. -/
def limiter_init (rate : Nat) (per_seconds start_time : ℚ) : RateLimiter :=
  ⟨rate, per_seconds, (rate : ℚ), (rate : ℚ), start_time⟩

/-- RateLimiter._refill_tokens evaluated when time.time() reads now:
add elapsed * (rate / per_seconds) tokens, capped at max_tokens, and stamp
last_refill. -/
def refill_tokens (now : ℚ) (s : RateLimiter) : RateLimiter :=
  let elapsed := now - s.last_refill
  let tokens_to_add := elapsed * ((s.rate : ℚ) / s.per_seconds)
  { s with tokens := min s.max_tokens (s.tokens + tokens_to_add), last_refill := now }

/-- RateLimiter._wait_time: zero when a token is available, otherwise the
missing fraction of a token times the seconds per token. -/
def wait_time (s : RateLimiter) : ℚ :=
  if s.tokens ≥ 1 then 0
  else
    let time_per_token := s.per_seconds / (s.rate : ℚ)
    let tokens_needed := 1 - s.tokens
    tokens_needed * time_per_token

/-- RateLimiter.wait_if_needed entered when time.time() reads now: refill,
sleep the computed wait time when it is positive (eps ≥ 0 models how much
longer than requested time.sleep takes; the clock after sleeping reads
now + wait + eps), refill again after sleeping, then consume one token. -/
def wait_if_needed (now eps : ℚ) (s : RateLimiter) : RateLimiter :=
  let s1 := refill_tokens now s
  let w := wait_time s1
  if w > 0 then
    let s2 := refill_tokens (now + w + eps) s1
    { s2 with tokens := s2.tokens - 1 }
  else
    { s1 with tokens := s1.tokens - 1 }

/-- RateLimiter.try_acquire at time now: refill, then consume a token only
when at least one is available, reporting whether it was. -/
def try_acquire (now : ℚ) (s : RateLimiter) : Bool × RateLimiter :=
  let s1 := refill_tokens now s
  if s1.tokens ≥ 1 then (true, { s1 with tokens := s1.tokens - 1 })
  else (false, s1)

/-- RateLimiter.get_tokens at time now: refill and read the count. -/
def get_tokens (now : ℚ) (s : RateLimiter) : ℚ × RateLimiter :=
  let s1 := refill_tokens now s
  (s1.tokens, s1)

/-- RateLimiter.reset at time now: restore a full bucket. -/
def limiter_reset (now : ℚ) (s : RateLimiter) : RateLimiter :=
  { s with tokens := s.max_tokens, last_refill := now }

/-- One call against the limiter, tagged with the wall-clock time at which
it runs (and, for wait_if_needed, the sleep overshoot). -/
inductive LimiterEvent where
  | wait (now eps : ℚ)
  | tryAcquire (now : ℚ)
  | getTokens (now : ℚ)
  | reset (now : ℚ)
deriving DecidableEq

def limiter_step (s : RateLimiter) : LimiterEvent → RateLimiter
  | .wait now eps => wait_if_needed now eps s
  | .tryAcquire now => (try_acquire now s).2
  | .getTokens now => (get_tokens now s).2
  | .reset now => limiter_reset now s

def run_limiter : List LimiterEvent → RateLimiter → RateLimiter
  | [], s => s
  | e :: es, s => run_limiter es (limiter_step s e)

/-- An event is chronological for a state when its wall-clock time is not
before the last refill stamp, and any sleep overshoot is non-negative. -/
def event_ok (s : RateLimiter) : LimiterEvent → Prop
  | .wait now eps => s.last_refill ≤ now ∧ 0 ≤ eps
  | .tryAcquire now => s.last_refill ≤ now
  | .getTokens now => s.last_refill ≤ now
  | .reset now => s.last_refill ≤ now

/-- A call sequence with monotonically non-decreasing wall-clock time. -/
def events_ok (s : RateLimiter) : List LimiterEvent → Prop
  | [] => True
  | e :: es => event_ok s e ∧ events_ok (limiter_step s e) es

/-- Well-formedness carried through every operation: the token count stays
inside [0, capacity], max_tokens is float(rate), the rate is positive and
the window is positive. -/
def LimiterInv (s : RateLimiter) : Prop :=
  0 ≤ s.tokens ∧ s.tokens ≤ s.max_tokens ∧ s.max_tokens = (s.rate : ℚ) ∧
    1 ≤ s.rate ∧ 0 < s.per_seconds

theorem refill_inv (now : ℚ) (s : RateLimiter) (hs : LimiterInv s)
    (ht : s.last_refill ≤ now) :
    LimiterInv (refill_tokens now s) ∧ (refill_tokens now s).last_refill = now ∧
      (refill_tokens now s).max_tokens = s.max_tokens ∧
      (refill_tokens now s).rate = s.rate ∧
      (refill_tokens now s).per_seconds = s.per_seconds := by
  obtain ⟨h0, h1, h2, h3, h4⟩ := hs
  have hrate : (0 : ℚ) < (s.rate : ℚ) := by
    have : (1 : ℚ) ≤ (s.rate : ℚ) := by exact_mod_cast h3
    linarith
  have hadd : 0 ≤ (now - s.last_refill) * ((s.rate : ℚ) / s.per_seconds) := by
    apply mul_nonneg (by linarith)
    positivity
  refine ⟨⟨?_, ?_, h2, h3, h4⟩, rfl, rfl, rfl, rfl⟩
  · simp only [refill_tokens]
    have hmax : (0 : ℚ) ≤ s.max_tokens := by rw [h2]; positivity
    exact le_min hmax (by linarith)
  · simp only [refill_tokens]
    exact min_le_left _ _

theorem refill_after_wait (now eps : ℚ) (s : RateLimiter) (hs : LimiterInv s)
    (hnow : s.last_refill = now) (heps : 0 ≤ eps) (hlow : s.tokens < 1) :
    1 ≤ (refill_tokens (now + wait_time s + eps) s).tokens := by
  obtain ⟨h0, h1, h2, h3, h4⟩ := hs
  have hrate : (0 : ℚ) < (s.rate : ℚ) := by
    have : (1 : ℚ) ≤ (s.rate : ℚ) := by exact_mod_cast h3
    linarith
  have hw : wait_time s = (1 - s.tokens) * (s.per_seconds / (s.rate : ℚ)) := by
    unfold wait_time
    rw [if_neg (by linarith)]
  have hmax1 : (1 : ℚ) ≤ s.max_tokens := by
    rw [h2]
    exact_mod_cast h3
  simp only [refill_tokens, hnow]
  have key : s.tokens + (now + wait_time s + eps - now) * ((s.rate : ℚ) / s.per_seconds) =
      1 + eps * ((s.rate : ℚ) / s.per_seconds) := by
    rw [hw]
    field_simp
    ring
  rw [key]
  have : 0 ≤ eps * ((s.rate : ℚ) / s.per_seconds) := by
    apply mul_nonneg heps
    positivity
  exact le_min hmax1 (by linarith)

theorem limiter_step_inv (s : RateLimiter) (e : LimiterEvent)
    (hs : LimiterInv s) (he : event_ok s e) :
    LimiterInv (limiter_step s e) ∧
      (limiter_step s e).max_tokens = s.max_tokens ∧
      (limiter_step s e).rate = s.rate ∧
      (limiter_step s e).per_seconds = s.per_seconds := by
  cases e with
  | wait now eps =>
    obtain ⟨hnow, heps⟩ := he
    obtain ⟨hi1, hl1, hm1, hr1, hp1⟩ := refill_inv now s hs hnow
    set s1 := refill_tokens now s with hs1
    simp only [limiter_step, wait_if_needed]
    by_cases hlow : s1.tokens ≥ 1
    · have hw : wait_time s1 = 0 := by unfold wait_time; rw [if_pos hlow]
      rw [hw]
      simp only [gt_iff_lt, lt_self_iff_false, if_false]
      obtain ⟨a0, a1, a2, a3, a4⟩ := hi1
      refine ⟨⟨?_, ?_, a2, a3, a4⟩, hm1, hr1, hp1⟩
      · show (0 : ℚ) ≤ s1.tokens - 1
        linarith
      · show s1.tokens - 1 ≤ s1.max_tokens
        linarith
    · push_neg at hlow
      have hwpos : 0 < wait_time s1 := by
        unfold wait_time
        rw [if_neg (by linarith)]
        obtain ⟨a0, a1, a2, a3, a4⟩ := hi1
        have hrate : (0 : ℚ) < (s1.rate : ℚ) := by
          have : (1 : ℚ) ≤ (s1.rate : ℚ) := by exact_mod_cast a3
          linarith
        apply mul_pos (by linarith)
        positivity
      rw [if_pos hwpos]
      have h1 : 1 ≤ (refill_tokens (now + wait_time s1 + eps) s1).tokens :=
        refill_after_wait now eps s1 hi1 hl1 heps hlow
      obtain ⟨b1, b2, b3, b4, b5⟩ :=
        (refill_inv (now + wait_time s1 + eps) s1 hi1 (by linarith [hwpos, heps, hl1.ge.trans_eq rfl])).1
      refine ⟨⟨?_, ?_, b3, b4, b5⟩, ?_, ?_, ?_⟩
      · show (0 : ℚ) ≤ (refill_tokens (now + wait_time s1 + eps) s1).tokens - 1
        linarith
      · show (refill_tokens (now + wait_time s1 + eps) s1).tokens - 1 ≤
          (refill_tokens (now + wait_time s1 + eps) s1).max_tokens
        linarith
      · show (refill_tokens (now + wait_time s1 + eps) s1).max_tokens = s.max_tokens
        simp [refill_tokens, hs1]
      · show (refill_tokens (now + wait_time s1 + eps) s1).rate = s.rate
        simp [refill_tokens, hs1]
      · show (refill_tokens (now + wait_time s1 + eps) s1).per_seconds = s.per_seconds
        simp [refill_tokens, hs1]
  | tryAcquire now =>
    obtain ⟨hi1, hl1, hm1, hr1, hp1⟩ := refill_inv now s hs he
    simp only [limiter_step, try_acquire]
    obtain ⟨a0, a1, a2, a3, a4⟩ := hi1
    by_cases hge : (refill_tokens now s).tokens ≥ 1
    · rw [if_pos hge]
      refine ⟨⟨?_, ?_, a2, a3, a4⟩, hm1, hr1, hp1⟩
      · show (0 : ℚ) ≤ (refill_tokens now s).tokens - 1
        linarith
      · show (refill_tokens now s).tokens - 1 ≤ (refill_tokens now s).max_tokens
        linarith
    · rw [if_neg hge]
      exact ⟨⟨a0, a1, a2, a3, a4⟩, hm1, hr1, hp1⟩
  | getTokens now =>
    obtain ⟨hi1, hl1, hm1, hr1, hp1⟩ := refill_inv now s hs he
    exact ⟨hi1, hm1, hr1, hp1⟩
  | reset now =>
    obtain ⟨h0, h1, h2, h3, h4⟩ := hs
    have : (0 : ℚ) ≤ s.max_tokens := by rw [h2]; positivity
    exact ⟨⟨this, le_refl _, h2, h3, h4⟩, rfl, rfl, rfl⟩

/-- C6: the token count is an invariant of RateLimiter. Starting from a
well-formed limiter of capacity C = max_tokens = float(rate), after any
chronological sequence of wait_if_needed, try_acquire, get_tokens and reset
calls the token count is never negative and never exceeds C. -/
theorem c6_token_invariant (s : RateLimiter) (es : List LimiterEvent)
    (hs : LimiterInv s) (he : events_ok s es) :
    0 ≤ (run_limiter es s).tokens ∧ (run_limiter es s).tokens ≤ s.max_tokens := by
  induction es generalizing s with
  | nil => exact ⟨hs.1, hs.2.1⟩
  | cons e es ih =>
    obtain ⟨he1, he2⟩ := he
    obtain ⟨hi, hm, _, _⟩ := limiter_step_inv s e hs he1
    have h := ih (limiter_step s e) hi he2
    rw [run_limiter]
    exact ⟨h.1, h.2.trans_eq hm⟩

theorem c6_token_invariant_witness :
    0 ≤ (run_limiter [.wait 0 0, .tryAcquire 0, .reset 1, .getTokens 2]
          (limiter_init 10 1 0)).tokens ∧
      (run_limiter [.wait 0 0, .tryAcquire 0, .reset 1, .getTokens 2]
          (limiter_init 10 1 0)).tokens ≤ (limiter_init 10 1 0).max_tokens :=
  c6_token_invariant (limiter_init 10 1 0) [.wait 0 0, .tryAcquire 0, .reset 1, .getTokens 2]
    (by refine ⟨by norm_num [limiter_init], by norm_num [limiter_init], ?_, by norm_num [limiter_init], by norm_num [limiter_init]⟩; norm_num [limiter_init])
    (by norm_num [events_ok, event_ok, limiter_step, limiter_init, wait_if_needed,
          refill_tokens, wait_time, try_acquire, limiter_reset, get_tokens])

/-- AdaptiveRateLimiter extends RateLimiter with rate bounds, the original
rate and a consecutive-success counter. -/
structure AdaptiveRateLimiter extends RateLimiter where
  min_rate : Nat
  max_rate : Nat
  initial_rate : Nat
  success_count : Nat
deriving DecidableEq

/-- AdaptiveRateLimiter.__init__ (which calls RateLimiter.__init__ with
per_seconds = 1.0). -/
def adaptive_init (rate min_rate max_rate : Nat) (start_time : ℚ) : AdaptiveRateLimiter :=
  { limiter_init rate 1 start_time with
    min_rate := min_rate, max_rate := max_rate, initial_rate := rate, success_count := 0 }

/-- AdaptiveRateLimiter.report_success: count the success; on the 10th
consecutive one, raise the rate by 1 capped at max_rate, track max_tokens,
and restart the counter. -/
def report_success (s : AdaptiveRateLimiter) : AdaptiveRateLimiter :=
  let sc := s.success_count + 1
  if sc ≥ 10 then
    let r := min s.max_rate (s.rate + 1)
    { s with rate := r, max_tokens := (r : ℚ), success_count := 0 }
  else
    { s with success_count := sc }

/-- AdaptiveRateLimiter.report_rate_limit_error: halve the rate by integer
division, floored at min_rate, track max_tokens, and restart the counter. -/
def report_rate_limit_error (s : AdaptiveRateLimiter) : AdaptiveRateLimiter :=
  let r := max s.min_rate (s.rate / 2)
  { s with rate := r, max_tokens := (r : ℚ), success_count := 0 }

/-- Feedback calls the adaptive limiter receives from its client. -/
inductive FeedbackEvent where
  | success
  | rateLimitError
deriving DecidableEq

def apply_feedback (s : AdaptiveRateLimiter) : FeedbackEvent → AdaptiveRateLimiter
  | .success => report_success s
  | .rateLimitError => report_rate_limit_error s

def run_feedback : List FeedbackEvent → AdaptiveRateLimiter → AdaptiveRateLimiter
  | [], s => s
  | e :: es, s => run_feedback es (apply_feedback s e)

theorem report_success_no_change (s : AdaptiveRateLimiter) (h : s.success_count + 1 < 10) :
    report_success s = { s with success_count := s.success_count + 1 } := by
  unfold report_success
  rw [if_neg (by omega)]

theorem report_success_tenth_rate (s : AdaptiveRateLimiter) (h : s.success_count = 9) :
    (report_success s).rate = min s.max_rate (s.rate + 1) := by
  unfold report_success
  rw [if_pos (by omega)]

theorem report_success_tenth_count (s : AdaptiveRateLimiter) (h : s.success_count = 9) :
    (report_success s).success_count = 0 := by
  unfold report_success
  rw [if_pos (by omega)]

theorem feedback_rate_in_range (s : AdaptiveRateLimiter) (e : FeedbackEvent)
    (hmm : s.min_rate ≤ s.max_rate) (h1 : s.min_rate ≤ s.rate) (h2 : s.rate ≤ s.max_rate) :
    s.min_rate ≤ (apply_feedback s e).rate ∧ (apply_feedback s e).rate ≤ s.max_rate ∧
      (apply_feedback s e).min_rate = s.min_rate ∧
      (apply_feedback s e).max_rate = s.max_rate := by
  cases e with
  | success =>
    by_cases h : s.success_count + 1 ≥ 10
    · simp only [apply_feedback, report_success, if_pos h]
      refine ⟨by omega, by omega, by trivial, by trivial⟩
    · simp only [apply_feedback, report_success, if_neg h]
      refine ⟨h1, h2, by trivial, by trivial⟩
  | rateLimitError =>
    simp only [apply_feedback, report_rate_limit_error]
    refine ⟨by omega, by omega, by trivial, by trivial⟩

/-- C5: the adaptive limiter behaves as specified. From any state whose
success counter is zero, ten consecutive report_success calls raise the
rate by exactly one, capped at max_rate, and leave the counter at zero
again; one report_rate_limit_error call sets the rate to rate // 2 floored
at min_rate and zeroes the counter; and under any sequence of
report_success / report_rate_limit_error calls a rate inside
[min_rate, max_rate] never leaves [min_rate, max_rate]. -/
theorem c5_adaptive_limiter (s : AdaptiveRateLimiter)
    (hmm : s.min_rate ≤ s.max_rate) (h1 : s.min_rate ≤ s.rate) (h2 : s.rate ≤ s.max_rate) :
    (s.success_count = 0 →
      (run_feedback (List.replicate 10 .success) s).rate = min s.max_rate (s.rate + 1) ∧
      (run_feedback (List.replicate 10 .success) s).success_count = 0) ∧
    ((report_rate_limit_error s).rate = max s.min_rate (s.rate / 2) ∧
      (report_rate_limit_error s).success_count = 0) ∧
    (∀ es : List FeedbackEvent,
      s.min_rate ≤ (run_feedback es s).rate ∧ (run_feedback es s).rate ≤ s.max_rate) := by
  refine ⟨?_, ⟨rfl, rfl⟩, ?_⟩
  · intro h0
    have step : ∀ k, k + 1 < 10 → ∀ t : AdaptiveRateLimiter, t.success_count = k →
        (report_success t).success_count = k + 1 ∧ (report_success t).rate = t.rate ∧
        (report_success t).max_rate = t.max_rate := by
      intro k hk t ht
      rw [report_success_no_change t (by omega)]
      exact ⟨by simp [ht], rfl, rfl⟩
    -- run the first nine successes, which only advance the counter
    have chain : ∀ k, k ≤ 9 →
        (run_feedback (List.replicate k .success) s).success_count = k ∧
        (run_feedback (List.replicate k .success) s).rate = s.rate ∧
        (run_feedback (List.replicate k .success) s).max_rate = s.max_rate := by
      intro k
      induction k with
      | zero => intro _; exact ⟨h0, rfl, rfl⟩
      | succ n ih =>
        intro hn
        obtain ⟨c1, c2, c3⟩ := ih (by omega)
        have hrep : List.replicate (n + 1) FeedbackEvent.success =
            List.replicate n FeedbackEvent.success ++ [FeedbackEvent.success] :=
          List.replicate_succ' n FeedbackEvent.success
        have hrun : ∀ xs ys (t : AdaptiveRateLimiter),
            run_feedback (xs ++ ys) t = run_feedback ys (run_feedback xs t) := by
          intro xs
          induction xs with
          | nil => intro ys t; rfl
          | cons x xs ihx => intro ys t; exact ihx ys (apply_feedback t x)
        rw [hrep, hrun]
        obtain ⟨d1, d2, d3⟩ := step n (by omega) _ c1
        refine ⟨?_, ?_, ?_⟩
        · show (report_success _).success_count = n + 1
          rw [d1]
        · show (report_success _).rate = s.rate
          rw [d2, c2]
        · show (report_success _).max_rate = s.max_rate
          rw [d3, c3]
    obtain ⟨c1, c2, c3⟩ := chain 9 (by omega)
    have hrep : List.replicate 10 FeedbackEvent.success =
        List.replicate 9 FeedbackEvent.success ++ [FeedbackEvent.success] :=
      List.replicate_succ' 9 FeedbackEvent.success
    have hrun : ∀ xs ys (t : AdaptiveRateLimiter),
        run_feedback (xs ++ ys) t = run_feedback ys (run_feedback xs t) := by
      intro xs
      induction xs with
      | nil => intro ys t; rfl
      | cons x xs ihx => intro ys t; exact ihx ys (apply_feedback t x)
    rw [hrep, hrun]
    have hsingle : ∀ t : AdaptiveRateLimiter,
        run_feedback [FeedbackEvent.success] t = report_success t := fun _ => rfl
    rw [hsingle]
    constructor
    · rw [report_success_tenth_rate _ c1, c2, c3]
    · rw [report_success_tenth_count _ c1]
  · intro es
    induction es generalizing s with
    | nil => exact ⟨h1, h2⟩
    | cons e es ih =>
      obtain ⟨f1, f2, f3, f4⟩ := feedback_rate_in_range s e hmm h1 h2
      have h := ih (apply_feedback s e) (by rw [f3, f4]; exact hmm) (by rw [f3]; exact f1)
        (by rw [f4]; exact f2)
      rw [run_feedback]
      exact ⟨f3 ▸ h.1, f4 ▸ h.2⟩

theorem c5_adaptive_limiter_witness :
    ((run_feedback (List.replicate 10 .success) (adaptive_init 10 1 50 0)).rate = 11 ∧
      (run_feedback (List.replicate 10 .success) (adaptive_init 10 1 50 0)).success_count = 0) ∧
    ((report_rate_limit_error (adaptive_init 10 1 50 0)).rate = 5 ∧
      (report_rate_limit_error (adaptive_init 10 1 50 0)).success_count = 0) ∧
    (1 ≤ (run_feedback [.rateLimitError, .success] (adaptive_init 10 1 50 0)).rate ∧
      (run_feedback [.rateLimitError, .success] (adaptive_init 10 1 50 0)).rate ≤ 50) := by
  have h := c5_adaptive_limiter (adaptive_init 10 1 50 0) (by decide) (by decide) (by decide)
  refine ⟨?_, ?_, ?_⟩
  · have h1 := h.1 rfl
    refine ⟨h1.1.trans ?_, h1.2⟩
    decide
  · exact h.2.1
  · exact h.2.2 [.rateLimitError, .success]

/-! ### models/product_sync.py -/

/-- Values of the sync_status selection field. -/
inductive SyncStatus where
  | pending
  | synced
  | error
  | manual
deriving DecidableEq

/-- A product.template row, restricted to the fields the sync code touches.
id is the database-assigned record id. The empty string models an unset
Char field (falsy in Odoo); last_sync_date is an Odoo datetime embedded as
a natural-number timestamp, none when unset. -/
structure LocalProduct where
  id : Nat
  name : String
  default_code : String
  external_id : String
  external_sku : String
  description : String
  list_price : ℚ
  standard_price : ℚ
  barcode : String
  active : Bool
  sync_status : SyncStatus
  last_sync_date : Option Nat
  sync_error_message : String
  is_from_external : Bool
deriving DecidableEq

/-- An external catalog record (one JSON item): each field is an Option,
none modelling a missing key, so that dict.get defaults apply exactly as
in the source. id holds str() of the id value. A key present with a JSON
null is not modelled (the claims do not exercise it). -/
structure ExternalRecord where
  id : Option String
  sku : Option String
  name : Option String
  description : Option String
  list_price : Option ℚ
  standard_price : Option ℚ
  barcode : Option String
  active : Option Bool
deriving DecidableEq

/-- The values dict built by _prepare_values_from_external after the
filtering comprehension: a none field models a key that was dropped by
v not in [None, ''] (or never produced). -/
structure Values where
  name : Option String
  external_id : Option String
  external_sku : Option String
  default_code : Option String
  description : Option String
  list_price : Option ℚ
  standard_price : Option ℚ
  barcode : Option String
  active : Option Bool
  is_from_external : Option Bool
  last_sync_date : Option Nat
deriving DecidableEq

/-- The comprehension filter applied to a string entry: drop it when it is
the empty string (a missing key already defaulted to ''). -/
def drop_empty (s : String) : Option String :=
  if s = "" then none else some s

/-- ProductTemplate._prepare_values_from_external evaluated at time now
(the fields.Datetime.now() stamp). String entries that end up None or ''
are dropped by the filter; the float, boolean and datetime entries are
never None or '' and always survive it. -/
def prepare_values_from_external (d : ExternalRecord) (now : Nat) : Values where
  name := drop_empty (d.name.getD "")
  external_id := drop_empty (d.id.getD "")
  external_sku := drop_empty (d.sku.getD "")
  default_code := drop_empty (d.sku.getD "")
  description := drop_empty (d.description.getD "")
  list_price := some (d.list_price.getD 0)
  standard_price := some (d.standard_price.getD 0)
  barcode := drop_empty (d.barcode.getD "")
  active := some (d.active.getD true)
  is_from_external := some true
  last_sync_date := some now

/-- getattr(self, field_name) != new_value for one entry of the values
dict; a dropped entry is not compared. -/
def diff_field {α : Type} [DecidableEq α] (cur : α) : Option α → Bool
  | none => false
  | some x => decide (cur ≠ x)

/-- Comparison for the last_sync_date entry: the stored value is an
optional datetime while the written value is a datetime. -/
def diff_last_sync (cur : Option Nat) : Option Nat → Bool
  | none => false
  | some x => decide (cur ≠ some x)

/-- The has_changes loop of update_from_external: some entry of the values
dict differs from the current attribute. -/
def update_has_changes (p : LocalProduct) (v : Values) : Bool :=
  diff_field p.name v.name ||
  diff_field p.external_id v.external_id ||
  diff_field p.external_sku v.external_sku ||
  diff_field p.default_code v.default_code ||
  diff_field p.description v.description ||
  diff_field p.list_price v.list_price ||
  diff_field p.standard_price v.standard_price ||
  diff_field p.barcode v.barcode ||
  diff_field p.active v.active ||
  diff_field p.is_from_external v.is_from_external ||
  diff_last_sync p.last_sync_date v.last_sync_date

/-- self.write(values): entries present in the dict overwrite the
corresponding fields, dropped entries leave them untouched. -/
def write_values (p : LocalProduct) (v : Values) : LocalProduct where
  id := p.id
  name := v.name.getD p.name
  external_id := v.external_id.getD p.external_id
  external_sku := v.external_sku.getD p.external_sku
  default_code := v.default_code.getD p.default_code
  description := v.description.getD p.description
  list_price := v.list_price.getD p.list_price
  standard_price := v.standard_price.getD p.standard_price
  barcode := v.barcode.getD p.barcode
  active := v.active.getD p.active
  sync_status := p.sync_status
  last_sync_date := match v.last_sync_date with
    | none => p.last_sync_date
    | some t => some t
  sync_error_message := p.sync_error_message
  is_from_external := v.is_from_external.getD p.is_from_external

/-- ProductTemplate.update_from_external at time now: prepare the values,
check for changes, write only when something differs; returns the
has_changes boolean together with the (possibly unchanged) row. -/
def update_from_external (p : LocalProduct) (d : ExternalRecord) (now : Nat) :
    Bool × LocalProduct :=
  let values := prepare_values_from_external d now
  if update_has_changes p values then (true, write_values p values)
  else (false, p)

/-- The default values of a fresh product.template row for the fields a
filtered-out entry leaves untouched at creation. -/
def default_product : LocalProduct where
  id := 0
  name := ""
  default_code := ""
  external_id := ""
  external_sku := ""
  description := ""
  list_price := 1
  standard_price := 0
  barcode := ""
  active := true
  sync_status := .manual
  last_sync_date := none
  sync_error_message := ""
  is_from_external := false

/-- ProductTemplate.create_from_external at time now: prepare the values,
force sync_status = synced, and create the row; new_id models the
database-assigned record id. -/
def create_from_external (d : ExternalRecord) (now : Nat) (new_id : Nat) : LocalProduct :=
  { write_values default_product (prepare_values_from_external d now) with
    sync_status := .synced, id := new_id }

/-- ProductTemplate.mark_as_synced at time now. -/
def mark_as_synced (p : LocalProduct) (now : Nat) : LocalProduct :=
  { p with sync_status := .synced, last_sync_date := some now,
           sync_error_message := "" }

/-- ProductTemplate.search_by_external_id over the product table (in table
order, limit 1). -/
def search_by_external_id (ps : List LocalProduct) (e : String) : Option LocalProduct :=
  ps.find? (fun p => p.external_id == e)

/-- ProductTemplate.search_by_sku: first by external_sku, and only when
that search is empty, by default_code (the internal Odoo SKU). -/
def search_by_sku (ps : List LocalProduct) (sku : String) : Option LocalProduct :=
  match ps.find? (fun p => p.external_sku == sku) with
  | some p => some p
  | none => ps.find? (fun p => p.default_code == sku)

/-! ### services/sync_service.py -/

/-- Operation recorded for one processed record. -/
inductive Operation where
  | create
  | update
  | skip
  | error
deriving DecidableEq

/-- Status of a product.sync.log entry. -/
inductive LogStatus where
  | success
  | error
  | warning
deriving DecidableEq

/-- A product.sync.log entry as written by SyncLog.log_success /
SyncLog.log_error for one processed record (audit payload fields that no
claim mentions are omitted). -/
structure SyncLogEntry where
  operation : Operation
  status : LogStatus
  external_id : String
  external_sku : String
deriving DecidableEq

/-- The per-operation counters of the summary dict (the legacy duplicate
counters created/updated/skipped stay zero in the loop and are omitted). -/
structure Summary where
  total : Nat
  create : Nat
  update : Nat
  skip : Nat
  errors : Nat
deriving DecidableEq

/-- summary[result.operation] += 1 on the success path, summary.errors += 1
in the per-record except handler. -/
def bump (s : Summary) : Operation → Summary
  | .create => { s with create := s.create + 1 }
  | .update => { s with update := s.update + 1 }
  | .skip => { s with skip := s.skip + 1 }
  | .error => { s with errors := s.errors + 1 }

/-- The existing-product resolution of _sync_single_product: first
search_by_external_id, then search_by_sku as a fallback. -/
def resolve_existing (ps : List LocalProduct) (external_id external_sku : String) :
    Option LocalProduct :=
  match search_by_external_id ps external_id with
  | some p => some p
  | none => search_by_sku ps external_sku

/-- One write() against the table: replace the row with the matching id. -/
def write_row (ps : List LocalProduct) (p : LocalProduct) : List LocalProduct :=
  ps.map (fun q => if q.id = p.id then p else q)

/-- One iteration of the per-record loop of sync_products (dry_run=False):
_sync_single_product, whose ValueError on a missing id or sku is caught by
the per-record except handler, which logs an error entry; the outcome
operation drives the summary bump. Returns the updated table, the log
entry written for the record, and the operation. -/
def sync_record_step (now : Nat) (ps : List LocalProduct) (d : ExternalRecord) :
    List LocalProduct × SyncLogEntry × Operation :=
  let external_id := d.id.getD ""
  let external_sku := d.sku.getD ""
  if external_id = "" ∨ external_sku = "" then
    -- raise ValueError, caught: summary.errors += 1 and SyncLog.log_error
    (ps, ⟨.error, .error, external_id, external_sku⟩, .error)
  else
    match resolve_existing ps external_id external_sku with
    | some p =>
      let r := update_from_external p d now
      if r.1 then
        let p2 := mark_as_synced r.2 now
        (write_row ps p2, ⟨.update, .success, external_id, external_sku⟩, .update)
      else
        (ps, ⟨.skip, .success, external_id, external_sku⟩, .skip)
    | none =>
      let newp := create_from_external d now ps.length
      (ps ++ [newp], ⟨.create, .success, external_id, external_sku⟩, .create)

/-- State threaded through the per-record loop. -/
structure LoopState where
  products : List LocalProduct
  logs : List SyncLogEntry
  summary : Summary
deriving DecidableEq

/-- The for-loop over the fetched records in sync_products. -/
def sync_loop (now : Nat) : List ExternalRecord → LoopState → LoopState
  | [], st => st
  | d :: rest, st =>
    let r := sync_record_step now st.products d
    sync_loop now rest
      { products := r.1, logs := st.logs ++ [r.2.1], summary := bump st.summary r.2.2 }

/-- sync_products without the surrounding transaction: process the fetched
records in order, starting from the given table with no logs yet and the
summary initialised with the record count. -/
def sync_products (now : Nat) (records : List ExternalRecord)
    (ps : List LocalProduct) : LoopState :=
  sync_loop now records { products := ps, logs := [], summary := ⟨records.length, 0, 0, 0, 0⟩ }

/-- The database as seen through the Odoo cursor: the committed rows and
log entries, and the pending (in-transaction, not yet committed) ones.
Writes made by the loop land in pending; cr.commit() publishes pending,
cr.rollback() restores pending from committed. -/
structure TxDB where
  committed : List LocalProduct × List SyncLogEntry
  pending : List LocalProduct × List SyncLogEntry
deriving DecidableEq

/-- sync_products (dry_run=False) with its transaction boundary. crash
injects the unhandled exception the outer except branch guards against:
crash = some k means an exception escapes outside the per-record
try/except after k records have been processed (for example the log store
or the rate limiter raising); crash = none means the batch runs to the
final cr.commit(). On the crash path the handler runs cr.rollback() and
re-raises, so the function returns the database state and the propagated
outcome. -/
def sync_products_tx (now : Nat) (records : List ExternalRecord)
    (crash : Option Nat) (db : TxDB) : TxDB × Except String Summary :=
  match crash with
  | none =>
    let st := sync_loop now records
      { products := db.pending.1, logs := db.pending.2,
        summary := ⟨records.length, 0, 0, 0, 0⟩ }
    -- self.env.cr.commit()
    ({ committed := (st.products, st.logs), pending := (st.products, st.logs) }, .ok st.summary)
  | some k =>
    let _st := sync_loop now (records.take k)
      { products := db.pending.1, logs := db.pending.2,
        summary := ⟨records.length, 0, 0, 0, 0⟩ }
    -- the per-record writes sit uncommitted in _st when the exception
    -- fires; except: self.env.cr.rollback(); raise
    ({ committed := db.committed, pending := db.committed },
      .error "Critical error during synchronization")

/-! ### Claims about the orchestrator and the product model -/

theorem sync_loop_append (now : Nat) (xs ys : List ExternalRecord) (st : LoopState) :
    sync_loop now (xs ++ ys) st = sync_loop now ys (sync_loop now xs st) := by
  induction xs generalizing st with
  | nil => rfl
  | cons x xs ih =>
    rw [List.cons_append, sync_loop, sync_loop]
    exact ih _

theorem sync_record_step_invalid (now : Nat) (ps : List LocalProduct)
    (d : ExternalRecord) (hbad : d.id.getD "" = "" ∨ d.sku.getD "" = "") :
    sync_record_step now ps d =
      (ps, ⟨.error, .error, d.id.getD "", d.sku.getD ""⟩, .error) := by
  unfold sync_record_step
  rw [if_pos hbad]

/-- The one catalog record of the C1 scenario (the record of the repository
test test_sync_idempotency). -/
def c1_catalog_record : ExternalRecord where
  id := some "1"
  sku := some "SKU-001"
  name := some "Product 1"
  description := none
  list_price := some 10
  standard_price := none
  barcode := none
  active := some true

/-- C1 is violated by the code: _prepare_values_from_external always puts
last_sync_date = Datetime.now() into the compared values, so resubmitting
identical external data at any later timestamp makes update_from_external
see a change, perform a write and return True, and the second orchestrator
run counts an update, not a skip. Evaluated at the failing input: the
catalog record is synced at t = 100 (one create), then resubmitted
unchanged at t = 101: the second run reports zero skips and one update,
update_from_external returns True, and the row is rewritten. -/
theorem c1_resync_is_update_not_skip :
    (sync_products 100 [c1_catalog_record] []).summary.create = 1 ∧
    (sync_products 101 [c1_catalog_record]
        (sync_products 100 [c1_catalog_record] []).products).summary.skip = 0 ∧
    (sync_products 101 [c1_catalog_record]
        (sync_products 100 [c1_catalog_record] []).products).summary.update = 1 ∧
    (update_from_external (create_from_external c1_catalog_record 100 0)
        c1_catalog_record 101).1 = true ∧
    (update_from_external (create_from_external c1_catalog_record 100 0)
        c1_catalog_record 101).2 ≠ create_from_external c1_catalog_record 100 0 := by
  decide

/-- C2 corrected: when an unhandled exception aborts the batch outside the
per-record try/except, sync_products propagates it to the caller, but the
except branch runs cr.rollback() before re-raising, so the per-record log
entries and product writes recorded (uncommitted) during the batch do not
survive: the database is restored to its committed state. Without a crash
the single cr.commit() at the end publishes the loop's writes. -/
theorem c2_abort_propagates_and_rolls_back (now : Nat)
    (records : List ExternalRecord) (k : Nat) (db : TxDB) :
    (sync_products_tx now records (some k) db).2 =
        .error "Critical error during synchronization" ∧
    (sync_products_tx now records (some k) db).1.committed = db.committed ∧
    (sync_products_tx now records (some k) db).1.pending = db.committed ∧
    (sync_products_tx now records none db).1.committed =
      ((sync_loop now records
          ⟨db.pending.1, db.pending.2, ⟨records.length, 0, 0, 0, 0⟩⟩).products,
       (sync_loop now records
          ⟨db.pending.1, db.pending.2, ⟨records.length, 0, 0, 0, 0⟩⟩).logs) :=
  ⟨rfl, rfl, rfl, rfl⟩

def c2_record_one : ExternalRecord where
  id := some "1"
  sku := some "SKU-A"
  name := some "First"
  description := none
  list_price := some 10
  standard_price := none
  barcode := none
  active := some true

def c2_record_two : ExternalRecord where
  id := some "2"
  sku := some "SKU-B"
  name := some "Second"
  description := none
  list_price := some 20
  standard_price := none
  barcode := none
  active := some true

/-- C2 counterexample: starting from an empty committed database, a
two-record batch is aborted by an unhandled exception after the first
record was processed. At that point the transaction held one product write
and one success log entry, yet after the abort both the committed and the
pending database are empty again: the per-record outcomes recorded before
the failure did not remain in place, against the claim. The exception is
propagated (that half of the claim holds). -/
theorem c2_counterexample :
    (sync_loop 100 [c2_record_one]
        ⟨[], [], ⟨2, 0, 0, 0, 0⟩⟩).logs.length = 1 ∧
    (sync_loop 100 [c2_record_one]
        ⟨[], [], ⟨2, 0, 0, 0, 0⟩⟩).products.length = 1 ∧
    (sync_products_tx 100 [c2_record_one, c2_record_two] (some 1)
        ⟨([], []), ([], [])⟩).2 = .error "Critical error during synchronization" ∧
    (sync_products_tx 100 [c2_record_one, c2_record_two] (some 1)
        ⟨([], []), ([], [])⟩).1.committed = ([], []) ∧
    (sync_products_tx 100 [c2_record_one, c2_record_two] (some 1)
        ⟨([], []), ([], [])⟩).1.pending = ([], []) := by
  refine ⟨by decide, by decide, rfl, by decide, by decide⟩

/-- C7: a record with an empty external identifier or empty SKU is isolated.
Its iteration writes exactly one error log entry and bumps only the error
counter, leaves the product table untouched, and the loop goes on to
process every remaining record from that unchanged table, exactly as it
would have without the invalid record in between. -/
theorem c7_invalid_record_isolated (now : Nat) (bad : ExternalRecord)
    (hbad : bad.id.getD "" = "" ∨ bad.sku.getD "" = "") :
    ∀ (pre post : List ExternalRecord) (st : LoopState),
      (sync_record_step now st.products bad).1 = st.products ∧
      (sync_record_step now st.products bad).2.2 = .error ∧
      (sync_record_step now st.products bad).2.1.status = .error ∧
      sync_loop now (pre ++ bad :: post) st =
        sync_loop now post
          { products := (sync_loop now pre st).products,
            logs := (sync_loop now pre st).logs ++
              [⟨.error, .error, bad.id.getD "", bad.sku.getD ""⟩],
            summary := { (sync_loop now pre st).summary with
              errors := (sync_loop now pre st).summary.errors + 1 } } := by
  intro pre post st
  have hstep : ∀ ps, sync_record_step now ps bad =
      (ps, ⟨.error, .error, bad.id.getD "", bad.sku.getD ""⟩, .error) :=
    fun ps => sync_record_step_invalid now ps bad hbad
  refine ⟨by rw [hstep], by rw [hstep], by rw [hstep], ?_⟩
  rw [sync_loop_append, sync_loop, hstep]
  simp [bump]

def c7_good_record : ExternalRecord where
  id := some "5"
  sku := some "SKU-G"
  name := some "Good"
  description := none
  list_price := some 7
  standard_price := none
  barcode := none
  active := some true

/-- A record whose sku key is missing, as in the spec scenario. -/
def c7_bad_record : ExternalRecord where
  id := some "3"
  sku := none
  name := some "No sku"
  description := none
  list_price := some 5
  standard_price := none
  barcode := none
  active := some true

theorem c7_invalid_record_isolated_witness :
    sync_loop 100 [c7_bad_record, c7_good_record] ⟨[], [], ⟨2, 0, 0, 0, 0⟩⟩ =
      sync_loop 100 [c7_good_record]
        { products := [], logs := [⟨.error, .error, "3", ""⟩],
          summary := ⟨2, 0, 0, 0, 1⟩ } ∧
    (sync_loop 100 [c7_bad_record, c7_good_record]
        ⟨[], [], ⟨2, 0, 0, 0, 0⟩⟩).summary = ⟨2, 1, 0, 0, 1⟩ := by
  constructor
  · exact (c7_invalid_record_isolated 100 c7_bad_record (by decide) [] [c7_good_record]
      ⟨[], [], ⟨2, 0, 0, 0, 0⟩⟩).2.2.2
  · decide

theorem resolve_existing_by_id_miss (ps : List LocalProduct)
    (external_id external_sku : String)
    (h : search_by_external_id ps external_id = none) :
    resolve_existing ps external_id external_sku = search_by_sku ps external_sku := by
  unfold resolve_existing
  rw [h]

/-- C9: the SKU fallback of search_by_sku is wider than an external-SKU
lookup. When some row matches on external_sku the first such row wins; when
none does, the search falls back to default_code, Odoo's internal SKU, so a
purely local row sharing a default_code is resolved. _sync_single_product
reaches search_by_sku exactly when the external-identifier lookup missed,
and once an update is written the row acquires the incoming external
identifier (it becomes linked). -/
theorem c9_sku_fallback_matches_default_code (ps : List LocalProduct)
    (sku : String) :
    (∀ p, ps.find? (fun q => q.external_sku == sku) = some p →
        search_by_sku ps sku = some p) ∧
    (ps.find? (fun q => q.external_sku == sku) = none →
        search_by_sku ps sku = ps.find? (fun q => q.default_code == sku)) ∧
    (∀ external_id, search_by_external_id ps external_id = none →
        resolve_existing ps external_id sku = search_by_sku ps sku) ∧
    (∀ (p : LocalProduct) (d : ExternalRecord) (now : Nat),
        d.id.getD "" ≠ "" → (update_from_external p d now).1 = true →
        (update_from_external p d now).2.external_id = d.id.getD "") := by
  refine ⟨?_, ?_, ?_, ?_⟩
  · intro p hp
    unfold search_by_sku
    rw [hp]
  · intro hnone
    unfold search_by_sku
    rw [hnone]
  · intro external_id h
    exact resolve_existing_by_id_miss ps external_id sku h
  · intro p d now hid hch
    unfold update_from_external at hch ⊢
    by_cases h : update_has_changes p (prepare_values_from_external d now)
    · rw [if_pos h]
      show (write_values p (prepare_values_from_external d now)).external_id = d.id.getD ""
      show ((prepare_values_from_external d now).external_id).getD p.external_id = d.id.getD ""
      show (drop_empty (d.id.getD "")).getD p.external_id = d.id.getD ""
      unfold drop_empty
      rw [if_neg hid]
      rfl
    · rw [if_neg h] at hch
      simp at hch

/-- A purely local row: no external identifier, no external SKU, only an
internal default_code. -/
def c9_local_product : LocalProduct where
  id := 0
  name := "Local only"
  default_code := "ABC"
  external_id := ""
  external_sku := ""
  description := ""
  list_price := 3
  standard_price := 0
  barcode := ""
  active := true
  sync_status := .manual
  last_sync_date := none
  sync_error_message := ""
  is_from_external := false

def c9_incoming_record : ExternalRecord where
  id := some "9"
  sku := some "ABC"
  name := some "Remote"
  description := none
  list_price := some 3
  standard_price := none
  barcode := none
  active := some true

theorem c9_sku_fallback_matches_default_code_witness :
    search_by_sku [c9_local_product] "ABC" = some c9_local_product ∧
    resolve_existing [c9_local_product] "9" "ABC" = some c9_local_product ∧
    (update_from_external c9_local_product c9_incoming_record 100).2.external_id = "9" := by
  have h := c9_sku_fallback_matches_default_code [c9_local_product] "ABC"
  have h1 : search_by_sku [c9_local_product] "ABC" = some c9_local_product :=
    (h.2.1 (by decide)).trans (by decide)
  refine ⟨h1, ?_, ?_⟩
  · exact (h.2.2.1 "9" (by decide)).trans h1
  · exact h.2.2.2 c9_local_product c9_incoming_record 100 (by decide) (by decide)

theorem drop_empty_ne_some_empty (s : String) : drop_empty s ≠ some "" := by
  unfold drop_empty
  by_cases h : s = ""
  · rw [if_pos h]
    exact Option.noConfusion
  · rw [if_neg h]
    intro hc
    exact h (Option.some.inj hc)

theorem update_result_cases (p : LocalProduct) (d : ExternalRecord) (now : Nat) :
    (update_from_external p d now).2 =
        write_values p (prepare_values_from_external d now) ∨
      (update_from_external p d now).2 = p := by
  unfold update_from_external
  by_cases h : update_has_changes p (prepare_values_from_external d now)
  · left
    rw [if_pos h]
  · right
    rw [if_neg h]

/-- C10: _prepare_values_from_external never hands an empty string to
create/update. Every string entry surviving the filter is non-empty; when
the external name, description, barcode or SKU is missing or empty the
corresponding entry is dropped, so update_from_external leaves the local
field exactly as it was; and in all cases the name, description, barcode
and external-SKU fields after an update are either untouched or non-empty:
the sync can only change them to non-empty values. -/
theorem c10_empty_never_overwrites (d : ExternalRecord) (now : Nat) (p : LocalProduct) :
    ((prepare_values_from_external d now).name ≠ some "" ∧
     (prepare_values_from_external d now).description ≠ some "" ∧
     (prepare_values_from_external d now).barcode ≠ some "" ∧
     (prepare_values_from_external d now).external_sku ≠ some "" ∧
     (prepare_values_from_external d now).default_code ≠ some "" ∧
     (prepare_values_from_external d now).external_id ≠ some "") ∧
    (d.name.getD "" = "" → (update_from_external p d now).2.name = p.name) ∧
    (d.description.getD "" = "" →
      (update_from_external p d now).2.description = p.description) ∧
    (d.barcode.getD "" = "" → (update_from_external p d now).2.barcode = p.barcode) ∧
    (d.sku.getD "" = "" →
      (update_from_external p d now).2.external_sku = p.external_sku ∧
      (update_from_external p d now).2.default_code = p.default_code) ∧
    ((update_from_external p d now).2.name = p.name ∨
      (update_from_external p d now).2.name ≠ "") ∧
    ((update_from_external p d now).2.description = p.description ∨
      (update_from_external p d now).2.description ≠ "") ∧
    ((update_from_external p d now).2.barcode = p.barcode ∨
      (update_from_external p d now).2.barcode ≠ "") ∧
    ((update_from_external p d now).2.external_sku = p.external_sku ∨
      (update_from_external p d now).2.external_sku ≠ "") := by
  have hd : ∀ s : String, s = "" → drop_empty s = none := by
    intro s hs
    unfold drop_empty
    rw [if_pos hs]
  have hcases := update_result_cases p d now
  refine ⟨⟨drop_empty_ne_some_empty _, drop_empty_ne_some_empty _,
      drop_empty_ne_some_empty _, drop_empty_ne_some_empty _,
      drop_empty_ne_some_empty _, drop_empty_ne_some_empty _⟩, ?_, ?_, ?_, ?_, ?_, ?_, ?_, ?_⟩
  · intro hempty
    rcases hcases with h | h
    · rw [h]
      show ((prepare_values_from_external d now).name).getD p.name = p.name
      show (drop_empty (d.name.getD "")).getD p.name = p.name
      rw [hd _ hempty]
      rfl
    · rw [h]
  · intro hempty
    rcases hcases with h | h
    · rw [h]
      show (drop_empty (d.description.getD "")).getD p.description = p.description
      rw [hd _ hempty]
      rfl
    · rw [h]
  · intro hempty
    rcases hcases with h | h
    · rw [h]
      show (drop_empty (d.barcode.getD "")).getD p.barcode = p.barcode
      rw [hd _ hempty]
      rfl
    · rw [h]
  · intro hempty
    rcases hcases with h | h
    · rw [h]
      constructor
      · show (drop_empty (d.sku.getD "")).getD p.external_sku = p.external_sku
        rw [hd _ hempty]
        rfl
      · show (drop_empty (d.sku.getD "")).getD p.default_code = p.default_code
        rw [hd _ hempty]
        rfl
    · rw [h]
      exact ⟨rfl, rfl⟩
  · rcases hcases with h | h
    · rw [h]
      show (drop_empty (d.name.getD "")).getD p.name = p.name ∨
        (drop_empty (d.name.getD "")).getD p.name ≠ ""
      unfold drop_empty
      by_cases hs : d.name.getD "" = ""
      · rw [if_pos hs]
        exact Or.inl rfl
      · rw [if_neg hs]
        exact Or.inr hs
    · rw [h]
      exact Or.inl rfl
  · rcases hcases with h | h
    · rw [h]
      show (drop_empty (d.description.getD "")).getD p.description = p.description ∨
        (drop_empty (d.description.getD "")).getD p.description ≠ ""
      unfold drop_empty
      by_cases hs : d.description.getD "" = ""
      · rw [if_pos hs]
        exact Or.inl rfl
      · rw [if_neg hs]
        exact Or.inr hs
    · rw [h]
      exact Or.inl rfl
  · rcases hcases with h | h
    · rw [h]
      show (drop_empty (d.barcode.getD "")).getD p.barcode = p.barcode ∨
        (drop_empty (d.barcode.getD "")).getD p.barcode ≠ ""
      unfold drop_empty
      by_cases hs : d.barcode.getD "" = ""
      · rw [if_pos hs]
        exact Or.inl rfl
      · rw [if_neg hs]
        exact Or.inr hs
    · rw [h]
      exact Or.inl rfl
  · rcases hcases with h | h
    · rw [h]
      show (drop_empty (d.sku.getD "")).getD p.external_sku = p.external_sku ∨
        (drop_empty (d.sku.getD "")).getD p.external_sku ≠ ""
      unfold drop_empty
      by_cases hs : d.sku.getD "" = ""
      · rw [if_pos hs]
        exact Or.inl rfl
      · rw [if_neg hs]
        exact Or.inr hs
    · rw [h]
      exact Or.inl rfl

/-- A record with empty name and missing description and barcode, against a
row with all those fields non-empty. -/
def c10_sparse_record : ExternalRecord where
  id := some "4"
  sku := none
  name := some ""
  description := none
  list_price := some 2
  standard_price := none
  barcode := none
  active := some true

def c10_full_product : LocalProduct where
  id := 1
  name := "Full name"
  default_code := "DC-1"
  external_id := "4"
  external_sku := "DC-1"
  description := "A description"
  list_price := 2
  standard_price := 0
  barcode := "12345"
  active := true
  sync_status := .synced
  last_sync_date := some 50
  sync_error_message := ""
  is_from_external := true

theorem c10_empty_never_overwrites_witness :
    (update_from_external c10_full_product c10_sparse_record 60).2.name = "Full name" ∧
    (update_from_external c10_full_product c10_sparse_record 60).2.description =
      "A description" ∧
    (update_from_external c10_full_product c10_sparse_record 60).2.barcode = "12345" ∧
    (update_from_external c10_full_product c10_sparse_record 60).2.external_sku = "DC-1" := by
  have h := c10_empty_never_overwrites c10_sparse_record 60 c10_full_product
  refine ⟨(h.2.1 (by decide)).trans (by decide),
    (h.2.2.1 (by decide)).trans (by decide),
    (h.2.2.2.1 (by decide)).trans (by decide),
    ((h.2.2.2.2.1 (by decide)).1).trans (by decide)⟩

end ProductSync
